import Mathlib

/-!
Shallow embedding of the Scam-detection realtime client
(src/main.py, src/config.py, src/db.py) and proofs about it.

Machine-level conventions: Python `json.loads` results are modelled by the
`Json` inductive below (floats as rationals, ints as integers, mirroring
Python's distinct `int`/`float` runtime types).  Fallible Python operations
are modelled with `Except PyErr`; the exception classes that matter to the
dispatch code are the four constructors of `PyErr`.
-/

namespace ScamDet

/-! ### Constants from src/config.py -/

def SCAM_SCORE_SAFE_MAX : Int := 3
def SCAM_SCORE_POSSIBLE_MIN : Int := 4
def SCAM_SCORE_POSSIBLE_MAX : Int := 7
def SCAM_SCORE_DEFINITE_MIN : Int := 8

def NOTIFICATION_THRESHOLD : Int := 4

def WS_MAX_RETRIES : Nat := 5
def WS_RETRY_BASE_DELAY : ℚ := 2
def WS_RETRY_MAX_DELAY : ℚ := 60

def AUDIO_INPUT_FORMAT : String := "pcm16"
def AUDIO_OUTPUT_FORMAT : String := "pcm16"

def DEFAULT_USER_UUID : String := "user-1234"

/-! ### Python JSON values (results of json.loads) -/

/-- A Python value as produced by `json.loads`: `null`, booleans, ints,
floats (modelled as rationals), strings, lists and dicts (dicts as
association lists; `json.loads` keeps the last binding for a duplicated
key, which `dictGet` reflects by searching from the end). -/
inductive Json where
  | null
  | bool (b : Bool)
  | int (n : Int)
  | float (q : ℚ)
  | str (s : String)
  | arr (elems : List Json)
  | obj (fields : List (String × Json))

/-- Python exceptions relevant to the transcript dispatch. -/
inductive PyErr where
  | jsonDecodeError
  | valueError
  | keyError
  | typeError
deriving DecidableEq

/-- The `except (json.JSONDecodeError, ValueError, KeyError)` clause at
src/main.py:529: `TypeError` is NOT in the tuple and escapes. -/
def PyErr.caughtByDispatch : PyErr → Bool
  | .jsonDecodeError => true
  | .valueError => true
  | .keyError => true
  | .typeError => false

/-- `needle` starts the list `hay`. -/
def startsWithChars : List Char → List Char → Bool
  | [], _ => true
  | _ :: _, [] => false
  | a :: as, b :: bs => a == b && startsWithChars as bs

/-- `needle` occurs contiguously inside `hay` (Python `sub in str`). -/
def hasSubstring : List Char → List Char → Bool
  | needle, [] => needle.isEmpty
  | needle, c :: rest => startsWithChars needle (c :: rest) || hasSubstring needle rest

/-- `d.get(key)` on a Python dict (last binding wins, as in `json.loads`). -/
def dictGet (fields : List (String × Json)) (key : String) : Option Json :=
  (fields.reverse).lookup key

/-- Python `key in data`: key test for dicts, element test for lists,
substring test for strings, `TypeError` for non-iterable values. -/
def pyContains (data : Json) (key : String) : Except PyErr Bool :=
  match data with
  | .obj fields => .ok (fields.any (fun f => f.1 == key))
  | .arr xs => .ok (xs.any (fun j => match j with | .str t => t == key | _ => false))
  | .str s => .ok (hasSubstring key.toList s.toList)
  | _ => .error .typeError

/-- Python `data[key]` with a string key: dict lookup (`KeyError` when the
key is absent), `TypeError` on every other value. -/
def pyGetItem (data : Json) (key : String) : Except PyErr Json :=
  match data with
  | .obj fields =>
    match dictGet fields key with
    | some v => .ok v
    | none => .error .keyError
  | _ => .error .typeError

/-- Python `int(x)`: identity on ints, `True ↦ 1 / False ↦ 0`, truncation
toward zero on floats, decimal parse on strings (`ValueError` on failure),
`TypeError` on `None`, lists and dicts. -/
def pyInt : Json → Except PyErr Int
  | .int n => .ok n
  | .bool b => .ok (if b then 1 else 0)
  | .float q => .ok (if 0 ≤ q then q.floor else q.ceil)
  | .str s =>
    match s.trim.toInt? with
    | some n => .ok n
    | none => .error .valueError
  | _ => .error .typeError

/-! ### get_scam_category (src/main.py:37) -/

structure CategoryInfo where
  category : String
  emoji : String
  color : String
  priority : String
  vibration : List Nat
deriving DecidableEq

/-- src/main.py:37-70.  The emoji strings are copied byte-for-byte from the
source file. -/
def get_scam_category (score : Int) : CategoryInfo :=
  if 1 ≤ score ∧ score ≤ SCAM_SCORE_SAFE_MAX then
    ⟨"Not a Scam", "âœ…", "#4CAF50", "default", [100, 100]⟩
  else if SCAM_SCORE_POSSIBLE_MIN ≤ score ∧ score ≤ SCAM_SCORE_POSSIBLE_MAX then
    ⟨"Possible Scam", "âš ", "#FFC107", "high", [200, 200, 200, 200]⟩
  else if SCAM_SCORE_DEFINITE_MIN ≤ score then
    ⟨"Definitely Scam", "ðŸš¨", "#F44336", "max", [500, 200, 500, 200, 500]⟩
  else
    ⟨"Unknown", "â“", "#9E9E9E", "default", [100, 100]⟩

/-! ### Client state and the event receiver (src/main.py:74-90, 493-548) -/

/-- The mutable `RealtimeClient` fields read by the event receiver and
written by the `/call/start` handler. -/
structure ClientState where
  phone_number : String
  fcm_token : Option String
  call_id : Option String
  instructions : String

/-- A recorded invocation of one of the two side-effect collaborators
(`save_call_data` at src/main.py:516, `self.send_notification` at
src/main.py:524), with the arguments the dispatch passes. -/
inductive CollabCall where
  | saveCallData (user_uuid : String) (scam_score : Int)
      (phone_number : String) (call_id : String)
  | sendNotification (phone_number : String) (scam_score : Int)
      (response_text : Json)

def CollabCall.isSave : CollabCall → Bool
  | .saveCallData _ _ _ _ => true
  | .sendNotification _ _ _ => false

def CollabCall.isNotification : CollabCall → Bool
  | .saveCallData _ _ _ _ => false
  | .sendNotification _ _ _ => true

def CollabCall.phoneOf : CollabCall → String
  | .saveCallData _ _ p _ => p
  | .sendNotification p _ _ => p

/-- The body of the `try` at src/main.py:510-528: parse the assistant
transcript, and on a qualifying assessment invoke persistence and, when
the score reaches the threshold, notification.  `parseJson` stands for the
`json.loads` library call; `threshold` is `config.NOTIFICATION_THRESHOLD`.
Returns the collaborator invocations in program order, or the escaping
Python exception. -/
def assessTranscript (threshold : Int) (parseJson : String → Option Json)
    (st : ClientState) (transcript : String) : Except PyErr (List CollabCall) :=
  match parseJson transcript with
  | none => .error .jsonDecodeError
  | some data =>
    match pyContains data "response" with
    | .error e => .error e
    | .ok false => .ok []
    | .ok true =>
      match pyContains data "score" with
      | .error e => .error e
      | .ok false => .ok []
      | .ok true =>
        match pyGetItem data "response" with
        | .error e => .error e
        | .ok response_text =>
          match pyGetItem data "score" with
          | .error e => .error e
          | .ok scoreVal =>
            match pyInt scoreVal with
            | .error e => .error e
            | .ok scam_score =>
              let save := CollabCall.saveCallData DEFAULT_USER_UUID scam_score
                st.phone_number (st.call_id.getD "unknown")
              if threshold ≤ scam_score then
                .ok [save, CollabCall.sendNotification st.phone_number scam_score response_text]
              else
                .ok [save]

/-- `event.get("type")` restricted to the string case: the dispatch only
compares the value against string literals, so a non-string type field
selects no branch. -/
def eventType (fields : List (String × Json)) : Option String :=
  match dictGet fields "type" with
  | some (.str s) => some s
  | _ => none

/-- Result of dispatching one inbound event: the collaborator calls made,
and whether the `async for` loop proceeds to the next message (`false`
when an exception escaped the dispatch into the outer handler at
src/main.py:546, which logs and ends the receiver). -/
structure StepResult where
  calls : List CollabCall
  continues : Bool

/-- One iteration of the receiver's `async for` body (src/main.py:498-542).
A non-dict event makes `event.get` raise `AttributeError`, uncaught;
a `response.audio_transcript.done` event with a non-string transcript makes
`json.loads` raise `TypeError`, uncaught; within the assessment `try`, only
`JSONDecodeError`/`ValueError`/`KeyError` are caught. -/
def handleEvent (threshold : Int) (parseJson : String → Option Json)
    (st : ClientState) (event : Json) : StepResult :=
  match event with
  | .obj fields =>
    if eventType fields = some "conversation.item.input_audio_transcription.completed" then
      ⟨[], true⟩
    else if eventType fields = some "response.audio_transcript.done" then
      match (dictGet fields "transcript").getD (.str "") with
      | .str transcript =>
        match assessTranscript threshold parseJson st transcript with
        | .ok calls => ⟨calls, true⟩
        | .error e => ⟨[], e.caughtByDispatch⟩
      | _ => ⟨[], false⟩
    else
      ⟨[], true⟩
  | _ => ⟨[], false⟩

/-- The receiver loop over a finite sequence of inbound events
(src/main.py:493-548): events are processed in arrival order until one lets
an exception escape its dispatch. -/
def receiveMessages (threshold : Int) (parseJson : String → Option Json)
    (st : ClientState) : List Json → List CollabCall
  | [] => []
  | ev :: rest =>
    let r := handleEvent threshold parseJson st ev
    if r.continues then r.calls ++ receiveMessages threshold parseJson st rest
    else r.calls

/-- The update branch of the `/call/start` handler (src/main.py:650-655):
overwrite instructions, phone number, token and call id of the running
client in place. -/
def updateClient (st : ClientState) (instructions phone_number fcm_token call_id : String) :
    ClientState :=
  { st with
    instructions := instructions
    phone_number := phone_number
    fcm_token := some fcm_token
    call_id := some call_id }

/-! ### connect_websocket (src/main.py:152-187) -/

/-- The backoff delay computed at src/main.py:177-180:
`min(WS_RETRY_BASE_DELAY * 2 ** attempt, WS_RETRY_MAX_DELAY)`. -/
def retryDelay (attempt : Nat) : ℚ :=
  min (WS_RETRY_BASE_DELAY * 2 ^ attempt) WS_RETRY_MAX_DELAY

/-- Outcome of one run of the retry loop: how many connection attempts were
made, the delays slept between consecutive attempts (in order), and the
boolean the function returns. -/
structure ConnectResult where
  attempts : Nat
  delays : List ℚ
  connected : Bool
deriving DecidableEq

/-- The `for attempt in range(...)` body of src/main.py:154-185, with the
outcome of each attempt given by `succeeds`.  `fuel` is the number of loop
iterations left (`WS_MAX_RETRIES - attempt`); a failure on the last
iteration returns `False` without sleeping, a failure earlier sleeps
`retryDelay attempt` and retries. -/
def connectAux (succeeds : Nat → Bool) (attempt : Nat) : Nat → ConnectResult
  | 0 => ⟨0, [], false⟩
  | fuel + 1 =>
    if succeeds attempt then ⟨1, [], true⟩
    else if fuel = 0 then ⟨1, [], false⟩
    else
      let rest := connectAux succeeds (attempt + 1) fuel
      ⟨rest.attempts + 1, retryDelay attempt :: rest.delays, rest.connected⟩

/-- src/main.py:152-187 with the configured retry budget. -/
def connect_websocket (succeeds : Nat → Bool) : ConnectResult :=
  connectAux succeeds 0 WS_MAX_RETRIES

/-! ### base64 (Python base64.b64encode, used at src/main.py:470) -/

def base64Alphabet : List Char :=
  ['A','B','C','D','E','F','G','H','I','J','K','L','M','N','O','P','Q','R','S',
   'T','U','V','W','X','Y','Z','a','b','c','d','e','f','g','h','i','j','k','l',
   'm','n','o','p','q','r','s','t','u','v','w','x','y','z','0','1','2','3','4',
   '5','6','7','8','9','+','/']

def sextetChar (n : Nat) : Char := base64Alphabet.getD n 'A'

def sextetOfChar (c : Char) : Option Nat :=
  base64Alphabet.findIdx? (fun a => a == c)

/-- RFC 4648 base64 of a byte list (each element < 256), 3 bytes to 4
characters with `=` padding — the semantics of `base64.b64encode`. -/
def base64Chars : List Nat → List Char
  | [] => []
  | [a] =>
    [sextetChar (a / 4), sextetChar (a % 4 * 16), '=', '=']
  | [a, b] =>
    [sextetChar (a / 4), sextetChar (a % 4 * 16 + b / 16), sextetChar (b % 16 * 4), '=']
  | a :: b :: c :: rest =>
    sextetChar (a / 4) :: sextetChar (a % 4 * 16 + b / 16) ::
      sextetChar (b % 16 * 4 + c / 64) :: sextetChar (c % 64) :: base64Chars rest

def base64Encode (bytes : List Nat) : String := String.mk (base64Chars bytes)

/-- Inverse of `base64Chars`, used to give the encoding meaning: decoding
recovers exactly the bytes that were encoded. -/
def base64DecodeChars : List Char → List Nat
  | c1 :: c2 :: c3 :: c4 :: rest =>
    (match sextetOfChar c1, sextetOfChar c2 with
     | some s1, some s2 =>
       if c3 = '=' then [s1 * 4 + s2 / 16]
       else
         match sextetOfChar c3 with
         | some s3 =>
           if c4 = '=' then [s1 * 4 + s2 / 16, s2 % 16 * 16 + s3 / 4]
           else
             match sextetOfChar c4 with
             | some s4 =>
               (s1 * 4 + s2 / 16) :: (s2 % 16 * 16 + s3 / 4) :: (s3 % 4 * 64 + s4) ::
                 base64DecodeChars rest
             | none => []
         | none => []
     | _, _ => [])
  | _ => []

/-! ### Outbound wire messages (src/main.py:392-420, 459-490) -/

/-- The `session.update` payload built at src/main.py:394-410. -/
def session_update_message (instructions : String) : Json :=
  Json.obj [("type", .str "session.update"),
    ("session", Json.obj [
      ("modalities", .arr [.str "audio", .str "text"]),
      ("voice", .str "alloy"),
      ("input_audio_format", .str AUDIO_INPUT_FORMAT),
      ("output_audio_format", .str AUDIO_OUTPUT_FORMAT),
      ("input_audio_transcription", Json.obj [("model", .str "whisper-1")]),
      ("turn_detection", Json.obj [
        ("type", .str "server_vad"),
        ("threshold", .float (1 / 2)),
        ("prefix_padding_ms", .int 300),
        ("silence_duration_ms", .int 500)]),
      ("instructions", .str instructions)])]

/-- The message built by the audio consumer at src/main.py:470-471 for one
dequeued frame: exactly the two fields `type` and `audio`. -/
def append_audio_message (frame : List Nat) : Json :=
  Json.obj [("type", .str "input_audio_buffer.append"),
            ("audio", .str (base64Encode frame))]

/-- The `type` discriminator of an outbound message. -/
def msgType : Json → Option String
  | .obj fields => eventType fields
  | _ => none

/-- The messages the audio consumer (src/main.py:459-490) sends for the
frames it dequeues, in FIFO order. -/
def consumerMessages (frames : List (List Nat)) : List Json :=
  frames.map append_audio_message

/-- The full sequence of websocket sends of one `start()` run
(src/main.py:189-221) in program order: nothing if the connection never
establishes; otherwise the single `configure_session` send (awaited at
line 207, before `asyncio.gather` starts the three tasks at line 209)
followed by the consumer's audio appends. -/
def startSentMessages (succeeds : Nat → Bool) (instructions : String)
    (frames : List (List Nat)) : List Json :=
  if (connect_websocket succeeds).connected then
    session_update_message instructions :: consumerMessages frames
  else []

/-! ### audio_producer (src/main.py:422-457) -/

/-- Outcome of offering one frame to the queue with
`asyncio.wait_for(self.audio_queue.put(...), timeout=1.0)`. -/
inductive PutOutcome where
  | accepted
  | timedOut
deriving DecidableEq

/-- One iteration's stimulus for the producer loop: a captured frame
together with the queue-offer outcome, an empty read (arecord stream
ended), or an exception raised during the read. -/
inductive ReadResult where
  | frame (data : List Nat) (put : PutOutcome)
  | emptyRead
  | readError

/-- Why the modelled producer run ended. -/
inductive ProducerExit where
  | stillRunning
  | sourceExhausted
  | errorStop
deriving DecidableEq

/-- The producer loop (src/main.py:426-455) over a finite stimulus list,
while `self.running` stays true: returns the frames enqueued, in order, and
how the run ended.  A put timeout logs and drops the frame (line 449-450);
an empty read breaks (line 440-442); a read exception logs and breaks
(line 452-455).  The loop body never assigns `self.running`. -/
def audio_producer : List ReadResult → List (List Nat) × ProducerExit
  | [] => ([], .stillRunning)
  | .frame d .accepted :: rest =>
    let r := audio_producer rest
    (d :: r.1, r.2)
  | .frame _ .timedOut :: rest => audio_producer rest
  | .emptyRead :: _ => ([], .sourceExhausted)
  | .readError :: _ => ([], .errorStop)

/-! ### save_call_data (src/db.py:20-90) -/

/-- Python `isinstance(x, int)` on a JSON-shaped value: ints and bools
(bool is a subclass of int) pass, everything else fails. -/
def isinstance_int : Json → Bool
  | .int _ => true
  | .bool _ => true
  | _ => false

/-- The integer value of a value passing `isinstance_int`. -/
def intValue : Json → Int
  | .int n => n
  | .bool b => if b then 1 else 0
  | _ => 0

/-- The document assembled at src/db.py:47-53 (the wall-clock timestamp
field is outside the embedded state). -/
structure CallDoc where
  user_uuid : String
  call_id : String
  phone_number : String
  scam_score : Int
deriving DecidableEq

/-- Outcome of one `insert_one` attempt (src/db.py:58-61). -/
inductive InsertOutcome where
  | success
  | timeout
  | failure
deriving DecidableEq

/-- The retry loop of src/db.py:55-90 (`max_retries = 3`): returns the
function result and the number of insert attempts performed. -/
def insertLoop (doc : CallDoc) (insertResult : Nat → InsertOutcome) :
    Nat → Nat → Option CallDoc × Nat
  | _, 0 => (none, 0)
  | attempt, fuel + 1 =>
    match insertResult attempt with
    | .success => (some doc, 1)
    | _ =>
      if fuel = 0 then (none, 1)
      else
        let r := insertLoop doc insertResult (attempt + 1) fuel
        (r.1, r.2 + 1)

/-- src/db.py:20-90.  `scam_score` arrives as a Python value so that the
`isinstance(scam_score, int)` guard is expressible; returns the saved
document (`None` on rejection or exhausted retries) and the number of
insert attempts made. -/
def save_call_data (user_uuid : String) (scam_score : Json)
    (phone_number call_id : String) (insertResult : Nat → InsertOutcome) :
    Option CallDoc × Nat :=
  if user_uuid = "" ∨ call_id = "" then (none, 0)
  else if ¬ (isinstance_int scam_score = true ∧
             1 ≤ intValue scam_score ∧ intValue scam_score ≤ 10) then (none, 0)
  else
    insertLoop ⟨user_uuid, call_id, phone_number, intValue scam_score⟩
      insertResult 0 3

/-! ### send_notification (src/main.py:325-389) -/

/-- The parts of the FCM message assembled at src/main.py:338-372 that the
embedding tracks. -/
structure NotificationMessage where
  title : String
  body : String
  data_phone_number : String
  data_scam_score : String
  data_response : String
  data_category : String
  token : String
  android_priority : String
  color : String
  vibration : List Nat
deriving DecidableEq

/-- Outcome of the `messaging.send` call (src/main.py:374-389). -/
inductive SendOutcome where
  | delivered
  | timeout
  | sendError
deriving DecidableEq

def buildNotificationMessage (token phone_number : String) (scam_score : Int)
    (response_text : String) : NotificationMessage :=
  let ci := get_scam_category scam_score
  { title := ci.emoji ++ " " ++ ci.category
    body := response_text ++ "\nScore: " ++ toString scam_score ++ "/10"
    data_phone_number := phone_number
    data_scam_score := toString scam_score
    data_response := response_text
    data_category := ci.category
    token := token
    android_priority := ci.priority
    color := ci.color
    vibration := ci.vibration }

/-- src/main.py:325-389: with no FCM token the function returns `False`
before building or sending anything (line 334-336); otherwise it builds the
message and the result reflects the send outcome.  The second component is
the message handed to `messaging.send`, `none` when no send was
attempted. -/
def send_notification (fcm_token : Option String) (phone_number : String)
    (scam_score : Int) (response_text : String) (outcome : SendOutcome) :
    Bool × Option NotificationMessage :=
  match fcm_token with
  | none => (false, none)
  | some token =>
    let msg := buildNotificationMessage token phone_number scam_score response_text
    match outcome with
    | .delivered => (true, some msg)
    | .timeout => (false, some msg)
    | .sendError => (false, some msg)

/-! ### Concrete fixtures for witnesses -/

/-- `json.loads` evaluated on the concrete transcript strings the witnesses
use (the braces of the JSON texts are written with hex escapes).  Every
string outside the three fixture texts maps to `none`, matching
`json.loads` raising `JSONDecodeError` on plain prose. -/
def parseFixture : String → Option Json := fun s =>
  if s = "\x7b\"response\":\"Possible Scam\",\"score\":6\x7d" then
    some (.obj [("response", .str "Possible Scam"), ("score", .int 6)])
  else if s = "\x7b\"response\":\"Not a Scam\",\"score\":2\x7d" then
    some (.obj [("response", .str "Not a Scam"), ("score", .int 2)])
  else if s = "\x7b\"response\":\"x\",\"score\":null\x7d" then
    some (.obj [("response", .str "x"), ("score", .null)])
  else none

def evScore6 : Json :=
  .obj [("type", .str "response.audio_transcript.done"),
        ("transcript", .str "\x7b\"response\":\"Possible Scam\",\"score\":6\x7d")]

def evScore2 : Json :=
  .obj [("type", .str "response.audio_transcript.done"),
        ("transcript", .str "\x7b\"response\":\"Not a Scam\",\"score\":2\x7d")]

def evScoreNull : Json :=
  .obj [("type", .str "response.audio_transcript.done"),
        ("transcript", .str "\x7b\"response\":\"x\",\"score\":null\x7d")]

def evProse : Json :=
  .obj [("type", .str "response.audio_transcript.done"),
        ("transcript", .str "I could not assess that")]

def stFixture : ClientState :=
  ⟨"+15550001111", some "fcm-token-1", some "call-1", "instructions"⟩

/-! ## Theorems -/

/-- `List.lookup` finding a key implies `any` over the keys is true. -/
theorem any_of_lookup (l : List (String × Json)) (k : String) (v : Json)
    (h : List.lookup k l = some v) : l.any (fun f => f.1 == k) = true := by
  induction l with
  | nil => simp [List.lookup] at h
  | cons a t ih =>
    rcases a with ⟨k', v'⟩
    by_cases hk : k = k'
    · subst hk
      simp
    · have hkb : (k == k') = false := by simp [hk]
      rw [List.lookup, hkb] at h
      simp only [List.any_cons]
      rw [ih h]
      simp

/-- A key found by `dictGet` is seen by the `key in dict` test. -/
theorem any_of_dictGet (l : List (String × Json)) (k : String) (v : Json)
    (h : dictGet l k = some v) : l.any (fun f => f.1 == k) = true := by
  have := any_of_lookup l.reverse k v h
  rwa [List.any_reverse] at this

/-- C10: with no FCM token, `send_notification` returns `False` without
building or attempting any notification send, for every phone number,
score, response text and would-be send outcome (src/main.py:334-336). -/
theorem C10_no_token_no_send (phone_number : String) (scam_score : Int)
    (response_text : String) (outcome : SendOutcome) :
    send_notification none phone_number scam_score response_text outcome =
      (false, none) := rfl

/-- `save_call_data` rejects, with no insert attempt, any input failing a
client-side check (src/db.py:39-45). -/
theorem save_call_data_reject (user_uuid : String) (scam_score : Json)
    (phone_number call_id : String) (insertResult : Nat → InsertOutcome)
    (h : user_uuid = "" ∨ call_id = "" ∨ isinstance_int scam_score = false ∨
         intValue scam_score < 1 ∨ 10 < intValue scam_score) :
    save_call_data user_uuid scam_score phone_number call_id insertResult = (none, 0) := by
  unfold save_call_data
  by_cases h0 : user_uuid = "" ∨ call_id = ""
  · rw [if_pos h0]
  · rw [if_neg h0]
    have hv : ¬ (isinstance_int scam_score = true ∧ 1 ≤ intValue scam_score ∧
        intValue scam_score ≤ 10) := by
      rcases h with h | h | h | h | h
      · exact absurd (Or.inl h) h0
      · exact absurd (Or.inr h) h0
      · intro hv
        rw [hv.1] at h
        exact Bool.noConfusion h
      · intro hv
        obtain ⟨-, h1, h2⟩ := hv
        omega
      · intro hv
        obtain ⟨-, h1, h2⟩ := hv
        omega
    rw [if_pos hv]

/-- An insert attempt implies every client-side check passed
(src/db.py:39-45, src/db.py:55-61). -/
theorem save_call_data_attempt_valid (user_uuid : String) (scam_score : Json)
    (phone_number call_id : String) (insertResult : Nat → InsertOutcome)
    (h : 0 < (save_call_data user_uuid scam_score phone_number call_id insertResult).2) :
    user_uuid ≠ "" ∧ call_id ≠ "" ∧ isinstance_int scam_score = true ∧
      1 ≤ intValue scam_score ∧ intValue scam_score ≤ 10 := by
  by_cases h0 : user_uuid = "" ∨ call_id = ""
  · exfalso
    unfold save_call_data at h
    rw [if_pos h0] at h
    simp at h
  · by_cases hv : isinstance_int scam_score = true ∧ 1 ≤ intValue scam_score ∧
        intValue scam_score ≤ 10
    · push_neg at h0
      exact ⟨h0.1, h0.2, hv.1, hv.2.1, hv.2.2⟩
    · exfalso
      unfold save_call_data at h
      rw [if_neg h0, if_pos hv] at h
      simp at h

/-- C9: `save_call_data` returns `None` and performs no insert attempt
whenever its inputs fail a client-side check (empty `user_uuid` or
`call_id`, or a score that is not an int in 1..10), and any run that
reaches the database insert had passed all those checks
(src/db.py:39-45). -/
theorem C9_validation_gate (user_uuid : String) (scam_score : Json)
    (phone_number call_id : String) (insertResult : Nat → InsertOutcome) :
    ((user_uuid = "" ∨ call_id = "" ∨ isinstance_int scam_score = false ∨
        intValue scam_score < 1 ∨ 10 < intValue scam_score) →
      save_call_data user_uuid scam_score phone_number call_id insertResult = (none, 0)) ∧
    (0 < (save_call_data user_uuid scam_score phone_number call_id insertResult).2 →
      user_uuid ≠ "" ∧ call_id ≠ "" ∧ isinstance_int scam_score = true ∧
        1 ≤ intValue scam_score ∧ intValue scam_score ≤ 10) :=
  ⟨save_call_data_reject user_uuid scam_score phone_number call_id insertResult,
   save_call_data_attempt_valid user_uuid scam_score phone_number call_id insertResult⟩

theorem C9_validation_gate_witness :
    save_call_data "" (.int 5) "+15550001111" "call-1" (fun _ => .success) = (none, 0) ∧
    ("user-1234" ≠ "" ∧ "call-1" ≠ "" ∧ isinstance_int (.int 5) = true ∧
      1 ≤ intValue (.int 5) ∧ intValue (.int 5) ≤ 10) :=
  ⟨(C9_validation_gate "" (.int 5) "+15550001111" "call-1" (fun _ => .success)).1
      (Or.inl rfl),
   (C9_validation_gate "user-1234" (.int 5) "+15550001111" "call-1"
      (fun _ => .success)).2 (by decide)⟩

/-- C7: a queue-offer timeout drops the current frame and the producer
continues exactly as if the frame had never been read: the run over the
remaining stimuli is unchanged, and a run consisting only of the dropped
frame ends with the loop still running (no break, no escalation)
(src/main.py:444-450). -/
theorem C7_drop_frame_continues (d : List Nat) (rest : List ReadResult) :
    audio_producer (ReadResult.frame d .timedOut :: rest) = audio_producer rest ∧
    audio_producer [ReadResult.frame d .timedOut] = ([], .stillRunning) :=
  ⟨rfl, rfl⟩

/-- C2 counterexample: 11 is outside the 1–10 domain, yet
`get_scam_category` puts it in the unbounded `score >= 8` branch, not in
"Unknown". -/
theorem C2_counterexample :
    ((11 : Int) ≤ 0 ∨ (11 : Int) ≥ 11) ∧
      (get_scam_category 11).category = "Definitely Scam" ∧
      (get_scam_category 11).category ≠ "Unknown" := by
  refine ⟨Or.inr le_rfl, ?_, ?_⟩ <;> decide

/-- C2 amended: scores at or below 0 are categorized "Unknown"; scores at
or above 11 fall into the upper branch and are categorized "Definitely
Scam" (the `score >= 8` branch has no upper bound); the category function
is total, enforcing no bound on the score it accepts. -/
theorem C2_out_of_domain_categories (score : Int) :
    (score ≤ 0 → (get_scam_category score).category = "Unknown") ∧
    (11 ≤ score → (get_scam_category score).category = "Definitely Scam") := by
  unfold get_scam_category SCAM_SCORE_SAFE_MAX SCAM_SCORE_POSSIBLE_MIN
    SCAM_SCORE_POSSIBLE_MAX SCAM_SCORE_DEFINITE_MIN
  constructor <;> intro h <;> split_ifs with h1 h2 h3 <;> first | rfl | omega

theorem C2_out_of_domain_categories_witness :
    (get_scam_category (-5)).category = "Unknown" ∧
      (get_scam_category 12).category = "Definitely Scam" :=
  ⟨(C2_out_of_domain_categories (-5)).1 (by norm_num),
   (C2_out_of_domain_categories 12).2 (by norm_num)⟩

/-- Evaluation of the transcript assessment when the transcript parses to
an object carrying a `response` field and an integer `score` field. -/
theorem assessTranscript_eval (threshold : Int) (parseJson : String → Option Json)
    (st : ClientState) (t : String) (dataFields : List (String × Json))
    (r : Json) (s : Int)
    (hparse : parseJson t = some (.obj dataFields))
    (hresp : dictGet dataFields "response" = some r)
    (hscore : dictGet dataFields "score" = some (.int s)) :
    assessTranscript threshold parseJson st t =
      .ok (if threshold ≤ s then
             [CollabCall.saveCallData DEFAULT_USER_UUID s st.phone_number
                (st.call_id.getD "unknown"),
              CollabCall.sendNotification st.phone_number s r]
           else
             [CollabCall.saveCallData DEFAULT_USER_UUID s st.phone_number
                (st.call_id.getD "unknown")]) := by
  have hr : (dataFields.any (fun f => f.1 == "response")) = true :=
    any_of_dictGet dataFields "response" r hresp
  have hs : (dataFields.any (fun f => f.1 == "score")) = true :=
    any_of_dictGet dataFields "score" (.int s) hscore
  unfold assessTranscript
  rw [hparse]
  simp only [pyContains, hr, hs, pyGetItem, hresp, hscore, pyInt]
  split_ifs <;> rfl

/-- Dispatch of a `response.audio_transcript.done` event with a string
transcript reduces to the assessment of that transcript. -/
theorem handleEvent_transcript_done (threshold : Int)
    (parseJson : String → Option Json) (st : ClientState)
    (eventFields : List (String × Json)) (t : String)
    (htype : eventType eventFields = some "response.audio_transcript.done")
    (htr : dictGet eventFields "transcript" = some (.str t)) :
    handleEvent threshold parseJson st (.obj eventFields) =
      match assessTranscript threshold parseJson st t with
      | .ok calls => ⟨calls, true⟩
      | .error e => ⟨[], e.caughtByDispatch⟩ := by
  show (if eventType eventFields = some "conversation.item.input_audio_transcription.completed"
        then (⟨[], true⟩ : StepResult)
        else if eventType eventFields = some "response.audio_transcript.done" then
          match (dictGet eventFields "transcript").getD (.str "") with
          | .str transcript =>
            match assessTranscript threshold parseJson st transcript with
            | .ok calls => ⟨calls, true⟩
            | .error e => ⟨[], e.caughtByDispatch⟩
          | _ => ⟨[], false⟩
        else ⟨[], true⟩) = _
  rw [htype, htr]
  simp

/-- C1: with `NOTIFICATION_THRESHOLD = 4`, dispatching an inbound
`response.audio_transcript.done` event whose transcript parses as JSON with
a `response` field and an integer `score` field invokes `send_notification`
exactly once with the score when the score is 6, not at all when the score
is 2, and in both cases invokes `save_call_data` exactly once — the latter
for every threshold value (src/main.py:506-528, src/config.py:49). -/
theorem C1_assessment_dispatch (parseJson : String → Option Json)
    (st : ClientState) (eventFields dataFields : List (String × Json))
    (t : String) (r : Json) (s : Int)
    (htype : eventType eventFields = some "response.audio_transcript.done")
    (htr : dictGet eventFields "transcript" = some (.str t))
    (hparse : parseJson t = some (.obj dataFields))
    (hresp : dictGet dataFields "response" = some r)
    (hscore : dictGet dataFields "score" = some (.int s)) :
    NOTIFICATION_THRESHOLD = 4 ∧
    (s = 6 →
      (handleEvent NOTIFICATION_THRESHOLD parseJson st (.obj eventFields)).calls =
        [CollabCall.saveCallData DEFAULT_USER_UUID 6 st.phone_number
           (st.call_id.getD "unknown"),
         CollabCall.sendNotification st.phone_number 6 r]) ∧
    (s = 2 →
      (handleEvent NOTIFICATION_THRESHOLD parseJson st (.obj eventFields)).calls =
        [CollabCall.saveCallData DEFAULT_USER_UUID 2 st.phone_number
           (st.call_id.getD "unknown")]) ∧
    (∀ threshold : Int,
      (handleEvent threshold parseJson st (.obj eventFields)).calls.filter
          CollabCall.isSave =
        [CollabCall.saveCallData DEFAULT_USER_UUID s st.phone_number
           (st.call_id.getD "unknown")] ∧
      (handleEvent threshold parseJson st (.obj eventFields)).continues = true) := by
  have hev : ∀ threshold : Int,
      handleEvent threshold parseJson st (.obj eventFields) =
        ⟨if threshold ≤ s then
           [CollabCall.saveCallData DEFAULT_USER_UUID s st.phone_number
              (st.call_id.getD "unknown"),
            CollabCall.sendNotification st.phone_number s r]
         else
           [CollabCall.saveCallData DEFAULT_USER_UUID s st.phone_number
              (st.call_id.getD "unknown")], true⟩ := by
    intro threshold
    rw [handleEvent_transcript_done threshold parseJson st eventFields t htype htr,
        assessTranscript_eval threshold parseJson st t dataFields r s hparse hresp hscore]
  refine ⟨rfl, ?_, ?_, ?_⟩
  · rintro rfl
    rw [hev]
    norm_num [NOTIFICATION_THRESHOLD]
  · rintro rfl
    rw [hev]
    norm_num [NOTIFICATION_THRESHOLD]
  · intro threshold
    rw [hev]
    constructor
    · split_ifs <;> simp [CollabCall.isSave, List.filter]
    · split_ifs <;> rfl

theorem C1_assessment_dispatch_witness :
    NOTIFICATION_THRESHOLD = 4 ∧
    (handleEvent NOTIFICATION_THRESHOLD parseFixture stFixture evScore6).calls =
      [CollabCall.saveCallData DEFAULT_USER_UUID 6 "+15550001111" "call-1",
       CollabCall.sendNotification "+15550001111" 6 (.str "Possible Scam")] ∧
    (handleEvent NOTIFICATION_THRESHOLD parseFixture stFixture evScore2).calls =
      [CollabCall.saveCallData DEFAULT_USER_UUID 2 "+15550001111" "call-1"] :=
  ⟨rfl,
   (C1_assessment_dispatch parseFixture stFixture
      [("type", .str "response.audio_transcript.done"),
       ("transcript", .str "\x7b\"response\":\"Possible Scam\",\"score\":6\x7d")]
      [("response", .str "Possible Scam"), ("score", .int 6)]
      "\x7b\"response\":\"Possible Scam\",\"score\":6\x7d"
      (.str "Possible Scam") 6 rfl rfl rfl rfl rfl).2.1 rfl,
   (C1_assessment_dispatch parseFixture stFixture
      [("type", .str "response.audio_transcript.done"),
       ("transcript", .str "\x7b\"response\":\"Not a Scam\",\"score\":2\x7d")]
      [("response", .str "Not a Scam"), ("score", .int 2)]
      "\x7b\"response\":\"Not a Scam\",\"score\":2\x7d"
      (.str "Not a Scam") 2 rfl rfl rfl rfl rfl).2.2.1 rfl⟩

/-- C4 counterexample: the transcript `{"response":"x","score":null}` is
valid JSON with both fields present but not of the expected shape, yet the
dispatch does not recover: `int(None)` raises `TypeError`, which the
`except (json.JSONDecodeError, ValueError, KeyError)` clause does not
catch, so the exception escapes to the outer handler and the receiver loop
stops — a subsequent qualifying event is never processed. -/
theorem C4_counterexample :
    (handleEvent NOTIFICATION_THRESHOLD parseFixture stFixture evScoreNull).calls = [] ∧
    (handleEvent NOTIFICATION_THRESHOLD parseFixture stFixture evScoreNull).continues
      = false ∧
    receiveMessages NOTIFICATION_THRESHOLD parseFixture stFixture
      [evScoreNull, evScore6] = [] ∧
    receiveMessages NOTIFICATION_THRESHOLD parseFixture stFixture [evScore6] =
      [CollabCall.saveCallData DEFAULT_USER_UUID 6 "+15550001111" "call-1",
       CollabCall.sendNotification "+15550001111" 6 (.str "Possible Scam")] :=
  ⟨rfl, rfl, rfl, rfl⟩

/-- C4 amended: for a `response.audio_transcript.done` event whose
transcript is not valid JSON, or parses to an object missing the
`response` or `score` key, or whose score is a string that fails integer
conversion (`ValueError`), neither collaborator is invoked, the exception
is caught inside the dispatch, and the receiver loop continues with the
remaining events unchanged (src/main.py:510-530). -/
theorem C4_malformed_recovered (threshold : Int) (parseJson : String → Option Json)
    (st : ClientState) (eventFields : List (String × Json)) (t : String)
    (rest : List Json)
    (htype : eventType eventFields = some "response.audio_transcript.done")
    (htr : dictGet eventFields "transcript" = some (.str t))
    (hbad : parseJson t = none
      ∨ (∃ dataFields, parseJson t = some (.obj dataFields) ∧
           (dataFields.any (fun f => f.1 == "response") = false ∨
            dataFields.any (fun f => f.1 == "score") = false))
      ∨ (∃ dataFields r s, parseJson t = some (.obj dataFields) ∧
           dictGet dataFields "response" = some r ∧
           dictGet dataFields "score" = some (.str s) ∧ s.trim.toInt? = none)) :
    handleEvent threshold parseJson st (.obj eventFields) = ⟨[], true⟩ ∧
    receiveMessages threshold parseJson st (.obj eventFields :: rest) =
      receiveMessages threshold parseJson st rest := by
  have hstep : handleEvent threshold parseJson st (.obj eventFields) = ⟨[], true⟩ := by
    rw [handleEvent_transcript_done threshold parseJson st eventFields t htype htr]
    rcases hbad with h | ⟨dataFields, hp, hm | hm⟩ | ⟨dataFields, r, s, hp, hr, hs, hv⟩
    · simp [assessTranscript, h, PyErr.caughtByDispatch]
    · simp [assessTranscript, hp, pyContains, hm]
    · cases hb : dataFields.any (fun f => f.1 == "response") with
      | false => simp [assessTranscript, hp, pyContains, hb]
      | true => simp [assessTranscript, hp, pyContains, hb, hm]
    · have hra := any_of_dictGet dataFields "response" r hr
      have hsa := any_of_dictGet dataFields "score" (.str s) hs
      simp [assessTranscript, hp, pyContains, hra, hsa, pyGetItem, hr, hs, pyInt, hv,
        PyErr.caughtByDispatch]
  refine ⟨hstep, ?_⟩
  simp [receiveMessages, hstep]

theorem C4_malformed_recovered_witness :
    handleEvent NOTIFICATION_THRESHOLD parseFixture stFixture evProse = ⟨[], true⟩ ∧
    receiveMessages NOTIFICATION_THRESHOLD parseFixture stFixture [evProse, evScore6] =
      receiveMessages NOTIFICATION_THRESHOLD parseFixture stFixture [evScore6] :=
  C4_malformed_recovered NOTIFICATION_THRESHOLD parseFixture stFixture
    [("type", .str "response.audio_transcript.done"),
     ("transcript", .str "I could not assess that")]
    "I could not assess that" [evScore6] rfl rfl (Or.inl rfl)

/-- Every collaborator call emitted by a successful transcript assessment
carries the client's current phone number. -/
theorem assessTranscript_phone (threshold : Int) (parseJson : String → Option Json)
    (st : ClientState) (t : String) (calls : List CollabCall)
    (h : assessTranscript threshold parseJson st t = .ok calls) :
    ∀ c ∈ calls, c.phoneOf = st.phone_number := by
  unfold assessTranscript at h
  repeat' split at h
  all_goals
    first
      | exact Except.noConfusion h
      | (injection h with h
         subst h
         intro c hc
         fin_cases hc <;> rfl)

/-- Every collaborator call made while dispatching one inbound event
carries the client's current phone number. -/
theorem handleEvent_phone (threshold : Int) (parseJson : String → Option Json)
    (st : ClientState) (ev : Json) :
    ∀ c ∈ (handleEvent threshold parseJson st ev).calls,
      c.phoneOf = st.phone_number := by
  intro c hc
  unfold handleEvent at hc
  repeat' split at hc
  all_goals
    first
      | exact absurd hc (List.not_mem_nil c)
      | (rename_i calls heq
         exact assessTranscript_phone _ _ _ _ _ heq c hc)

/-- Every collaborator call of a receiver run carries the client's current
phone number. -/
theorem receiveMessages_phone (threshold : Int) (parseJson : String → Option Json)
    (st : ClientState) (events : List Json) :
    ∀ c ∈ receiveMessages threshold parseJson st events,
      c.phoneOf = st.phone_number := by
  induction events with
  | nil =>
    intro c hc
    exact absurd hc (List.not_mem_nil c)
  | cons ev rest ih =>
    intro c hc
    simp only [receiveMessages] at hc
    split_ifs at hc
    · rcases List.mem_append.mp hc with h | h
      · exact handleEvent_phone _ _ _ _ c h
      · exact ih c h
    · exact handleEvent_phone _ _ _ _ c hc

/-- C5: after the `/call/start` update branch replaces the phone number of
the running client, every collaborator invocation produced by subsequently
dispatched events carries the new phone number, not the one the session was
created with (src/main.py:650-661, src/main.py:516-528). -/
theorem C5_update_phone (threshold : Int) (parseJson : String → Option Json)
    (st : ClientState) (instructions newPhone token callId : String)
    (events : List Json) (c : CollabCall)
    (hc : c ∈ receiveMessages threshold parseJson
            (updateClient st instructions newPhone token callId) events) :
    c.phoneOf = newPhone ∧
      (st.phone_number ≠ newPhone → c.phoneOf ≠ st.phone_number) := by
  have h : c.phoneOf = newPhone :=
    receiveMessages_phone threshold parseJson
      (updateClient st instructions newPhone token callId) events c hc
  refine ⟨h, fun hne heq => hne ?_⟩
  rw [h] at heq
  exact heq.symm

theorem C5_update_phone_witness :
    (CollabCall.saveCallData DEFAULT_USER_UUID 6 "+15550001111" "call-1").phoneOf
      = "+15550001111" ∧
    (CollabCall.saveCallData DEFAULT_USER_UUID 6 "+15550001111" "call-1").phoneOf
      ≠ "+19998887777" := by
  have happ := C5_update_phone NOTIFICATION_THRESHOLD parseFixture
    ⟨"+19998887777", some "old-token", some "old-call", "old-instructions"⟩
    "instructions" "+15550001111" "fcm-token-1" "call-1" [evScore6]
    (CollabCall.saveCallData DEFAULT_USER_UUID 6 "+15550001111" "call-1")
    (show _ ∈ [CollabCall.saveCallData DEFAULT_USER_UUID 6 "+15550001111" "call-1",
               CollabCall.sendNotification "+15550001111" 6 (.str "Possible Scam")] from
       List.mem_cons_self _ _)
  exact ⟨happ.1, happ.2 (by decide)⟩

/-- One failing non-final iteration of the retry loop. -/
theorem connectAux_step (succeeds : Nat → Bool) (a g : Nat)
    (hfail : succeeds a = false) (hg : g ≠ 0) :
    connectAux succeeds a (g + 1) =
      ⟨(connectAux succeeds (a + 1) g).attempts + 1,
       retryDelay a :: (connectAux succeeds (a + 1) g).delays,
       (connectAux succeeds (a + 1) g).connected⟩ := by
  simp [connectAux, hfail, hg]

/-- Closed form of the retry loop when every attempt fails: `fuel` attempts
are made, the delays are the backoff formula at each attempt index, and the
result is `False`. -/
theorem connectAux_all_fail (succeeds : Nat → Bool) (h : ∀ n, succeeds n = false) :
    ∀ (fuel a : Nat), connectAux succeeds a fuel =
      ⟨fuel, (List.range (fuel - 1)).map (fun i => retryDelay (a + i)), false⟩ := by
  intro fuel
  induction fuel with
  | zero => intro a; rfl
  | succ g ih =>
    intro a
    cases g with
    | zero => simp [connectAux, h]
    | succ g' =>
      rw [connectAux_step succeeds a (g' + 1) (h a) (Nat.succ_ne_zero g'), ih (a + 1)]
      dsimp only
      simp only [Nat.add_sub_cancel]
      congr 1
      rw [List.range_succ_eq_map]
      simp only [List.map_cons, List.map_map, Nat.add_zero, Function.comp]
      refine congrArg (fun l => retryDelay a :: l) (List.map_congr_left ?_)
      intro i _
      have hai : a + 1 + i = a + (i + 1) := by omega
      rw [hai]
      rfl

/-- C3: when every connection attempt fails, `connect_websocket` makes
exactly `WS_MAX_RETRIES` attempts, the delay slept after attempt `i` is
`min(WS_RETRY_BASE_DELAY * 2^i, WS_RETRY_MAX_DELAY)` — hence the delay
sequence is non-decreasing and capped by the maximum delay — the final
outcome is `False` (connection failed), and the session sends nothing: no
further automatic reconnect happens within that `start()` run
(src/main.py:152-187, src/main.py:194-196, src/config.py:68-70). -/
theorem C3_connect_retry_exhaustion (succeeds : Nat → Bool)
    (instructions : String) (frames : List (List Nat))
    (h : ∀ n, succeeds n = false) :
    (connect_websocket succeeds).attempts = WS_MAX_RETRIES ∧
    (connect_websocket succeeds).connected = false ∧
    (connect_websocket succeeds).delays =
      (List.range (WS_MAX_RETRIES - 1)).map retryDelay ∧
    (connect_websocket succeeds).delays.Chain' (· ≤ ·) ∧
    (∀ d ∈ (connect_websocket succeeds).delays, d ≤ WS_RETRY_MAX_DELAY) ∧
    startSentMessages succeeds instructions frames = [] := by
  have hc : connect_websocket succeeds =
      ⟨WS_MAX_RETRIES, (List.range (WS_MAX_RETRIES - 1)).map
        (fun i => retryDelay (0 + i)), false⟩ :=
    connectAux_all_fail succeeds h WS_MAX_RETRIES 0
  simp only [Nat.zero_add] at hc
  have hdelays : (List.range (WS_MAX_RETRIES - 1)).map retryDelay =
      [retryDelay 0, retryDelay 1, retryDelay 2, retryDelay 3] := by
    rw [show WS_MAX_RETRIES - 1 = 4 from rfl]
    rfl
  have hvals : [retryDelay 0, retryDelay 1, retryDelay 2, retryDelay 3] =
      ([2, 4, 8, 16] : List ℚ) := by
    norm_num [retryDelay, WS_RETRY_BASE_DELAY, WS_RETRY_MAX_DELAY, min_def]
  refine ⟨by rw [hc], by rw [hc], by rw [hc], ?_, ?_, ?_⟩
  · rw [hc]
    simp only [hdelays, hvals]
    norm_num [List.chain'_cons, List.chain'_singleton]
  · rw [hc]
    simp only [hdelays, hvals, WS_RETRY_MAX_DELAY]
    intro d hd
    fin_cases hd <;> norm_num
  · simp [startSentMessages, hc]

theorem C3_connect_retry_exhaustion_witness :
    (connect_websocket (fun _ => false)).attempts = WS_MAX_RETRIES ∧
    (connect_websocket (fun _ => false)).connected = false ∧
    (connect_websocket (fun _ => false)).delays =
      (List.range (WS_MAX_RETRIES - 1)).map retryDelay ∧
    (connect_websocket (fun _ => false)).delays.Chain' (· ≤ ·) ∧
    (∀ d ∈ (connect_websocket (fun _ => false)).delays, d ≤ WS_RETRY_MAX_DELAY) ∧
    startSentMessages (fun _ => false) "instructions" [[1, 2, 3]] = [] :=
  C3_connect_retry_exhaustion (fun _ => false) "instructions" [[1, 2, 3]]
    (fun _ => rfl)

/-- The consumer's append message carries the append type tag. -/
theorem msgType_append (frame : List Nat) :
    msgType (append_audio_message frame) = some "input_audio_buffer.append" := rfl

/-- C6: within one `start()` run that establishes a connection, the
`session.update` configure message is sent exactly once, it is the very
first message sent, and everything after it is an
`input_audio_buffer.append` — `configure_session` is awaited at
src/main.py:207 before `asyncio.gather` starts the producer, consumer and
receiver tasks at src/main.py:209. -/
theorem C6_configure_once_first (succeeds : Nat → Bool) (instructions : String)
    (frames : List (List Nat))
    (h : (connect_websocket succeeds).connected = true) :
    startSentMessages succeeds instructions frames =
      session_update_message instructions :: consumerMessages frames ∧
    (startSentMessages succeeds instructions frames).countP
        (fun m => msgType m == some "session.update") = 1 ∧
    ∀ m ∈ consumerMessages frames, msgType m = some "input_audio_buffer.append" := by
  have htr : startSentMessages succeeds instructions frames =
      session_update_message instructions :: consumerMessages frames := by
    simp [startSentMessages, h]
  refine ⟨htr, ?_, ?_⟩
  · rw [htr, List.countP_cons]
    have h0 : (consumerMessages frames).countP
        (fun m => msgType m == some "session.update") = 0 := by
      rw [List.countP_eq_zero]
      intro m hm
      obtain ⟨f, hf, rfl⟩ := List.mem_map.mp hm
      simp [msgType_append]
    rw [h0]
    rfl
  · intro m hm
    obtain ⟨f, hf, rfl⟩ := List.mem_map.mp hm
    rfl

theorem C6_configure_once_first_witness :
    startSentMessages (fun _ => true) "instructions" [[1, 2, 3]] =
      session_update_message "instructions" :: consumerMessages [[1, 2, 3]] ∧
    (startSentMessages (fun _ => true) "instructions" [[1, 2, 3]]).countP
        (fun m => msgType m == some "session.update") = 1 ∧
    ∀ m ∈ consumerMessages [[1, 2, 3]],
      msgType m = some "input_audio_buffer.append" :=
  C6_configure_once_first (fun _ => true) "instructions" [[1, 2, 3]] rfl

/-- Each of the 64 alphabet sextets decodes back to itself. -/
theorem sextetOfChar_sextetChar :
    ∀ n, n < 64 → sextetOfChar (sextetChar n) = some n := by decide

/-- No alphabet character is the padding character. -/
theorem sextetChar_ne_padChar : ∀ n, n < 64 → sextetChar n ≠ '=' := by decide

/-- Decoding inverts encoding on byte lists: base64 loses no audio data. -/
theorem base64_roundtrip : ∀ (bytes : List Nat), (∀ b ∈ bytes, b < 256) →
    base64DecodeChars (base64Chars bytes) = bytes := by
  intro bytes
  induction bytes using base64Chars.induct with
  | case1 =>
    intro h
    rfl
  | case2 a =>
    intro h
    have ha : a < 256 := h a (by simp)
    have h1 : a / 4 < 64 := by omega
    have h2 : a % 4 * 16 < 64 := by omega
    simp only [base64Chars, base64DecodeChars, sextetOfChar_sextetChar _ h1,
      sextetOfChar_sextetChar _ h2, if_pos rfl, if_true]
    simp only [List.cons.injEq, and_true]
    omega
  | case3 a b =>
    intro h
    have ha : a < 256 := h a (by simp)
    have hb : b < 256 := h b (by simp)
    have h1 : a / 4 < 64 := by omega
    have h2 : a % 4 * 16 + b / 16 < 64 := by omega
    have h3 : b % 16 * 4 < 64 := by omega
    simp only [base64Chars, base64DecodeChars, sextetOfChar_sextetChar _ h1,
      sextetOfChar_sextetChar _ h2, sextetOfChar_sextetChar _ h3,
      if_neg (sextetChar_ne_padChar _ h3), if_pos rfl, if_true]
    simp only [List.cons.injEq, and_true]
    refine ⟨?_, ?_⟩ <;> omega
  | case4 a b c rest ih =>
    intro h
    have ha : a < 256 := h a (by simp)
    have hb : b < 256 := h b (by simp)
    have hc : c < 256 := h c (by simp)
    have hrest : ∀ x ∈ rest, x < 256 := fun x hx => h x (by simp [hx])
    have h1 : a / 4 < 64 := by omega
    have h2 : a % 4 * 16 + b / 16 < 64 := by omega
    have h3 : b % 16 * 4 + c / 64 < 64 := by omega
    have h4 : c % 64 < 64 := by omega
    simp only [base64Chars, base64DecodeChars, sextetOfChar_sextetChar _ h1,
      sextetOfChar_sextetChar _ h2, sextetOfChar_sextetChar _ h3,
      sextetOfChar_sextetChar _ h4, if_neg (sextetChar_ne_padChar _ h3),
      if_neg (sextetChar_ne_padChar _ h4)]
    rw [ih hrest]
    simp only [List.cons.injEq, and_true]
    refine ⟨?_, ?_, ?_⟩ <;> omega

/-- C8: every message the audio consumer sends is exactly
`{"type": "input_audio_buffer.append", "audio": <base64>}` — no other
fields — where the audio field is the base64 encoding of the dequeued frame
bytes, and that encoding decodes back to exactly those bytes
(src/main.py:470-474). -/
theorem C8_append_message_shape (frames : List (List Nat))
    (h : ∀ f ∈ frames, ∀ b ∈ f, b < 256) :
    ∀ m ∈ consumerMessages frames, ∃ f ∈ frames,
      m = Json.obj [("type", .str "input_audio_buffer.append"),
                    ("audio", .str (base64Encode f))] ∧
      base64DecodeChars (base64Encode f).data = f := by
  intro m hm
  obtain ⟨f, hf, rfl⟩ := List.mem_map.mp hm
  exact ⟨f, hf, rfl, base64_roundtrip f (h f hf)⟩

theorem C8_append_message_shape_witness :
    ∃ f ∈ [[77, 97, 110]],
      append_audio_message [77, 97, 110] =
        Json.obj [("type", .str "input_audio_buffer.append"),
                  ("audio", .str (base64Encode f))] ∧
      base64DecodeChars (base64Encode f).data = f :=
  C8_append_message_shape [[77, 97, 110]] (by decide)
    (append_audio_message [77, 97, 110]) (by simp [consumerMessages])

end ScamDet
